import Mathlib

/-!
Verification of the hardlight RPC runtime.

This file gives a shallow embedding of the connection loops and the state
guard of the repository:

* `src/src/client.rs` — `Client::connect`: handshake verification, the
  256-entry slot table, the submit / receive / shutdown event loop.
* `src/src/server.rs` — `Server::handle_connection`: the handshake callback,
  the 256-entry `in_flight` busy table, and the request / response /
  state-change event loop.
* `src/testing-project/src/main.rs` — `StateGuard::drop`: pre-image diffing
  and enqueueing of state changes.

Machine integers (the `u8` RPC ids, `u32` counter) are modelled as `Nat`;
byte strings as `List Nat`.  Oneshot completion handles are identified by
`Nat` tokens.  The asynchronous loops are modelled as functions over lists of
the events their `select!` can receive, which is faithful to the
single-threaded cooperative semantics: a loop body runs to completion for one
event before the next is processed.
-/

set_option maxRecDepth 10000

namespace HardLight

/-! ## Wire model (the `crate::wire` envelopes as used by client.rs / server.rs) -/

abbrev Bytes := List Nat

/-- `RpcHandlerError` — the closed error enumeration of the wire module. -/
inductive RpcHandlerError where
  | BadInputBytes
  | BadOutputBytes
  | TooManyCallsInFlight
  | ClientNotConnected
  | StatePoisoned
deriving DecidableEq

/-- `ClientMessage` — client→server envelopes.  `id` is a `u8` on the wire. -/
inductive ClientMessage where
  | RPCRequest (id : Nat) (internal : Bytes)
deriving DecidableEq

/-- `ServerMessage` — server→client envelopes. -/
inductive ServerMessage where
  | RPCResponse (id : Nat) (output : Except RpcHandlerError Bytes)
  | StateChange (changes : List (String × Bytes))
  | NewEvent (data : Bytes)

/-! ## Client multiplexer (src/src/client.rs, `Client::connect`) -/

/-- Rust `Iterator::position`: the index of the first element satisfying `p`
(client.rs line 172: `active_rpc_calls.iter().position(|x| x.is_none())`). -/
def position (p : α → Bool) : List α → Option Nat
  | [] => none
  | x :: xs => if p x then some 0 else (position p xs).map (· + 1)

/-- Environment outcomes for one submit iteration: whether
`rkyv::to_bytes` succeeds and whether `stream.send` succeeds. -/
structure SubmitEnv where
  encodeOk : Bool
  sendOk : Bool

/-- What the submit arm did with the call. -/
inductive SubmitOut where
  | err (e : RpcHandlerError)
  | stored (id : Nat) (frame : ClientMessage)

/-- The submit arm of the client loop (client.rs lines 169–210).
The slot table `active_rpc_calls` is a list of 256 optional completion
handles; handles are identified by `Nat` tokens.

* scan for the lowest free id; if none, reply `TooManyCallsInFlight`;
* encode the `RPCRequest`; on failure reply `BadInputBytes` and `continue`
  (the slot was never filled);
* send the binary frame; on failure reply `ClientNotConnected` and
  `continue`;
* otherwise store the completion handle in the slot. -/
def clientSubmit (slots : List (Option Nat)) (handle : Nat) (payload : Bytes)
    (env : SubmitEnv) : List (Option Nat) × SubmitOut :=
  match position Option.isNone slots with
  | some id =>
    if env.encodeOk then
      if env.sendOk then
        (slots.set id (some handle), .stored id (.RPCRequest id payload))
      else (slots, .err .ClientNotConnected)
    else (slots, .err .BadInputBytes)
  | none => (slots, .err .TooManyCallsInFlight)

/-- One event the client loop's `select!` can wake up on. -/
inductive ClientEvent where
  | submit (handle : Nat) (payload : Bytes) (env : SubmitEnv)
  | response (id : Nat) (output : Except RpcHandlerError Bytes)
  | stateChange (changes : List (String × Bytes))
  | newEvent
  | badFrame
  | shutdown

/-- How a completion handle is resolved. -/
inductive Signal where
  | result (r : Except RpcHandlerError Bytes)
  | cancelled

/-- Observable outputs of the client loop: a signal delivered to a completion
handle, or a binary frame written to the WebSocket. -/
inductive LoopOut where
  | signal (handle : Nat) (s : Signal)
  | frame (m : ClientMessage)

/-- The completion handles currently stored in the slot table. -/
def pendingHandles (slots : List (Option Nat)) : List Nat :=
  slots.filterMap (fun x => x)

/-- The client event loop (client.rs lines 166–254), as a function from the
slot table and the sequence of `select!` events to the emitted outputs.

* `submit`: see `clientSubmit`;
* `response id out`: `active_rpc_calls[id].take()` — if a handle is present
  deliver `out` to it and free the slot, else log and drop;
* `stateChange` / `newEvent` / `badFrame` (decode failure, stream error,
  non-binary frame): no effect on the slot table, loop continues;
* `shutdown`: `break` — the loop exits, the slot table is dropped, and every
  pending completion handle is dropped, which its waiter observes as
  cancellation. -/
def clientLoop : List (Option Nat) → List ClientEvent → List LoopOut
  | _, [] => []
  | slots, .submit h p env :: es =>
    match clientSubmit slots h p env with
    | (slots', .err e) => .signal h (.result (.error e)) :: clientLoop slots' es
    | (slots', .stored _ m) => .frame m :: clientLoop slots' es
  | slots, .response id out :: es =>
    match slots[id]? with
    | some (some h) => .signal h (.result out) :: clientLoop (slots.set id none) es
    | _ => clientLoop slots es
  | slots, .stateChange _ :: es => clientLoop slots es
  | slots, .newEvent :: es => clientLoop slots es
  | slots, .badFrame :: es => clientLoop slots es
  | slots, .shutdown :: _ => (pendingHandles slots).map (fun h => .signal h .cancelled)

/-- The initial slot table: 256 free slots (client.rs lines 143–163). -/
def initSlots : List (Option Nat) := List.replicate 256 none

/-! ## Server multiplexer (src/src/server.rs, `Server::handle_connection`) -/

/-- Per-connection server loop state (server.rs lines 169–174): the
`in_flight` busy table (an array of 256 booleans indexed by the `u8` id) and
the spawned handler tasks whose responses have not yet been dispatched. -/
structure ServerConn where
  inFlight : Nat → Bool
  tasks : List Nat

def serverInit : ServerConn := ⟨fun _ => false, []⟩

/-- One event the server loop's `select!` can wake up on.  `binary d` is a
binary WebSocket frame whose `rkyv::from_bytes` decode result is `d`
(`none` means the bytes are malformed); `response id` is the completion of
the spawned handler task for `id` arriving on the internal `rpc_rx`
channel. -/
inductive ServerEvent where
  | binary (decoded : Option ClientMessage)
  | nonBinary
  | recvError
  | response (id : Nat)
  | stateChange (changes : List (String × Bytes))

/-- One iteration of the server loop (server.rs lines 176–252).  `none`
means the iteration panicked the connection task.

* a stream error is logged and skipped (`continue`);
* a non-binary frame falls through the `is_binary` test;
* a binary frame is decoded with `rkyv::from_bytes(&binary).unwrap()` —
  decode failure panics the task (line 189);
* `RPCRequest { id, .. }`: if `in_flight[id]` the request is logged and
  ignored; otherwise `in_flight[id] := true` and a handler task is spawned;
* `response id` (only ever produced by a spawned task, hence the membership
  guard): `in_flight[id] := false`, the response is encoded and sent, and a
  send error only ends the iteration (`continue`);
* a state change is encoded and sent, with no id bookkeeping. -/
def serverStep (s : ServerConn) : ServerEvent → Option ServerConn
  | .recvError => some s
  | .nonBinary => some s
  | .binary none => none
  | .binary (some (.RPCRequest id _)) =>
    if s.inFlight id then some s
    else some ⟨Function.update s.inFlight id true, id :: s.tasks⟩
  | .response id =>
    if id ∈ s.tasks then
      some ⟨Function.update s.inFlight id false, s.tasks.erase id⟩
    else some s
  | .stateChange _ => some s

/-- The server loop over a sequence of events, from the initial state. -/
def serverRun (es : List ServerEvent) : Option ServerConn :=
  es.foldlM serverStep serverInit

/-- The loop invariant: no id has two outstanding handler tasks, and every
outstanding task's id is marked busy. -/
def serverInv (s : ServerConn) : Prop :=
  s.tasks.Nodup ∧ ∀ id ∈ s.tasks, s.inFlight id = true

/-! ## Handshake and the `connect` control flow -/

/-- The handshake response the server callback returns (server.rs lines
139–156).  `tungstenite` hands the callback a `101 Switching Protocols`
response with no `Sec-WebSocket-Protocol` header. -/
structure HsResponse where
  status : Nat
  protocol : Option String

/-- The server's `accept_hdr_async` callback: if the request's
`Sec-WebSocket-Protocol` header is absent or unequal to the server's
version string, the status is set to `400 Bad Request` (and no protocol
header is echoed); otherwise the sub-label is echoed back. -/
def serverCallback (reqProtocol : Option String) (version : String) : HsResponse :=
  if reqProtocol = none ∨ reqProtocol ≠ some version then ⟨400, none⟩
  else ⟨101, some version⟩

/-- One accepted TLS connection on the server (server.rs lines 139–252):
the response the callback produced for the upgrade request, paired with the
outcome of the RPC loop.  The callback returns `Ok(response)` on both of
its branches — with the status mutated to `400 Bad Request` on a version
mismatch — and tungstenite's `accept_hdr_async` aborts only when the
callback returns `Err(ErrorResponse)` (or the transport fails): an `Ok`
response is written to the peer verbatim and the server handshake then
completes.  So whatever the version check decided, the task proceeds into
its RPC loop (`none` meaning the loop panicked). -/
def serverConnection (reqProtocol : Option String) (version : String)
    (es : List ServerEvent) : HsResponse × Option ServerConn :=
  (serverCallback reqProtocol version, serverRun es)

/-- The error `Client::connect` returns on a bad echoed sub-label
(client.rs line 130: `Error::Protocol(ProtocolError::HandshakeIncomplete)`). -/
inductive HsError where
  | HandshakeIncomplete

/-- How `Client::connect` terminates (client.rs lines 125–257):

* `handshakeFailed`: returned `Err` to the caller before signalling `ok`;
* `panicked b`: an `unwrap()` on a oneshot send panicked the task (`b`
  records whether `ok` had already been delivered);
* `completed outs`: `ok` was signalled, the loop ran, and `connect`
  returned `Ok(())`. -/
inductive ConnectOutcome where
  | handshakeFailed (e : HsError)
  | panicked (okSignalled : Bool)
  | completed (outs : List LoopOut)

/-- `Client::connect` after the WebSocket upgrade has produced the response
(client.rs lines 127–257): verify the echoed `Sec-WebSocket-Protocol`
header against the sub-label that was sent; on mismatch return
`HandshakeIncomplete`.  Then `ok_tx.send(()).unwrap()` (panics if the
application dropped the ok receiver), then
`control_channels_tx.send(..).unwrap()` (panics if the application dropped
the control-channels receiver), then run the event loop, which only exits
on shutdown, after which `connect` returns `Ok(())`. -/
def connect (echoed : Option String) (sent : String)
    (okAlive ctrlAlive : Bool) (es : List ClientEvent) : ConnectOutcome :=
  if echoed = none ∨ echoed ≠ some sent then .handshakeFailed .HandshakeIncomplete
  else if okAlive then
    if ctrlAlive then .completed (clientLoop initSlots es)
    else .panicked true
  else .panicked false

/-- Whether the readiness oneshot was delivered to the application. -/
def okSignalled : ConnectOutcome → Bool
  | .handshakeFailed _ => false
  | .panicked b => b
  | .completed _ => true

/-- The binary frames the client wrote to the WebSocket after the upgrade. -/
def framesSent : ConnectOutcome → List ClientMessage
  | .completed outs =>
    outs.filterMap (fun o => match o with | .frame m => some m | .signal _ _ => none)
  | .handshakeFailed _ => []
  | .panicked _ => []

/-! ## State guard and diff emission (src/testing-project/src/main.rs) -/

/-- The user state of the testing project: `CounterState { counter: u32 }`. -/
structure CounterState where
  counter : Nat

/-- The `rkyv` encoding of a `u32`: four little-endian bytes. -/
def encodeU32 (n : Nat) : Bytes :=
  [n % 256, n / 256 % 256, n / 256 ^ 2 % 256, n / 256 ^ 3 % 256]

/-- The diff computed in `StateGuard::drop` (main.rs lines 243–253): for
each field of the record whose current value differs from the pre-image
snapshot taken at lock time, an entry `(field_name, encoded_new_value)`.
`CounterState` has the single field `counter`. -/
def diffChanges (cur pre : CounterState) : List (String × Bytes) :=
  if cur.counter ≠ pre.counter then [("counter", encodeU32 cur.counter)] else []

/-- Outcome of the detached task spawned by `StateGuard::drop`
(main.rs lines 262–265): `channel.send(changes).await.unwrap()` delivers
the changes when the channel is open and panics on the send error when the
receiver is gone. -/
inductive TaskOutcome where
  | delivered
  | panicked
deriving DecidableEq

def forwardChanges (channelOpen : Bool) (_changes : List (String × Bytes)) :
    TaskOutcome :=
  if channelOpen then .delivered else .panicked

/-- What the release path emitted: nothing, or one enqueued change list. -/
inductive DropEmission where
  | nothing
  | enqueued (changes : List (String × Bytes))

/-- Result of `StateGuard::drop` (main.rs lines 240–267): the emission
decided synchronously on the release path, and the outcome of the detached
forwarding task, if one was spawned.  The release path itself performs no
channel operation: if the diff is empty it returns without sending anything;
otherwise it spawns the forwarding task and returns. -/
structure ReleaseResult where
  emission : DropEmission
  task : Option TaskOutcome

def stateGuardRelease (cur pre : CounterState) (channelOpen : Bool) :
    ReleaseResult :=
  let changes := diffChanges cur pre
  if changes.isEmpty then ⟨.nothing, none⟩
  else ⟨.enqueued changes, some (forwardChanges channelOpen changes)⟩

/-! ## Completion exactness (C3) -/

/-- The completion-handle tokens of the calls submitted in an event list. -/
def submitHandles : List ClientEvent → List Nat
  | [] => []
  | .submit h _ _ :: es => h :: submitHandles es
  | .response _ _ :: es => submitHandles es
  | .stateChange _ :: es => submitHandles es
  | .newEvent :: es => submitHandles es
  | .badFrame :: es => submitHandles es
  | .shutdown :: es => submitHandles es

/-- No shutdown event occurs in the list. -/
def shutdownFree : List ClientEvent → Bool
  | [] => true
  | .shutdown :: _ => false
  | _ :: es => shutdownFree es

/-- Whether a loop output is a signal delivered to handle `h`. -/
def isSignalFor (h : Nat) : LoopOut → Bool
  | .signal h' _ => h' == h
  | .frame _ => false

/-- How many times the loop outputs signal completion handle `h`. -/
def signalCount (outs : List LoopOut) (h : Nat) : Nat :=
  outs.countP (isSignalFor h)

/-! ### Properties of `position` -/

theorem position_isNone_eq_none_of_full :
    ∀ (l : List (Option Nat)), (∀ x ∈ l, x ≠ none) →
      position Option.isNone l = none
  | [], _ => rfl
  | x :: xs, hf => by
    have hx : x ≠ none := hf x (List.mem_cons_self _ _)
    have hx' : x.isNone = false := by
      cases x with
      | none => exact absurd rfl hx
      | some a => rfl
    have ih := position_isNone_eq_none_of_full xs
      (fun y hy => hf y (List.mem_cons_of_mem _ hy))
    simp [position, hx', ih]

theorem position_isNone_spec :
    ∀ (l : List (Option Nat)) (i : Nat),
      position Option.isNone l = some i →
      l[i]? = some none ∧ ∀ j, j < i → l[j]? ≠ some none := by
  intro l
  induction l with
  | nil => intro i h; simp [position] at h
  | cons x xs ih =>
    intro i h
    cases x with
    | none =>
      simp [position] at h
      subst h
      exact ⟨by simp, fun j hj => absurd hj (Nat.not_lt_zero j)⟩
    | some a =>
      simp [position, Option.map_eq_some'] at h
      obtain ⟨i', hi', rfl⟩ := h
      refine ⟨by simpa using (ih i' hi').1, ?_⟩
      intro j hj
      cases j with
      | zero => simp
      | succ k =>
        simpa using (ih i' hi').2 k (Nat.lt_of_succ_lt_succ hj)

/-- C1: On the client submit path, for every submitted call the multiplexer
assigns the lowest-numbered free ID in the 0..=255 slot table (the first
index the linear scan finds free is below every other free index); if every
slot is occupied, the call's completion handle receives
`TooManyCallsInFlight` and the slot table is returned unchanged — no
existing slot is evicted or overwritten. -/
theorem submit_assigns_lowest_free_id (slots : List (Option Nat)) (h : Nat)
    (p : Bytes) (env : SubmitEnv) :
    ((∀ x ∈ slots, x ≠ none) →
      clientSubmit slots h p env = (slots, .err .TooManyCallsInFlight))
  ∧ (∀ id, position Option.isNone slots = some id →
      slots[id]? = some none
      ∧ (∀ j, j < id → slots[j]? ≠ some none)
      ∧ (env.encodeOk = true → env.sendOk = true →
          clientSubmit slots h p env
            = (slots.set id (some h), .stored id (.RPCRequest id p)))) := by
  constructor
  · intro hfull
    have hpos := position_isNone_eq_none_of_full slots hfull
    simp [clientSubmit, hpos]
  · intro id hpos
    obtain ⟨hfree, hlow⟩ := position_isNone_spec slots id hpos
    refine ⟨hfree, hlow, ?_⟩
    intro henc hsend
    simp [clientSubmit, hpos, henc, hsend]

/-- Witness for C1 at a concrete slot table. -/
theorem submit_assigns_lowest_free_id_witness :
    clientSubmit [some 9, some 8] 7 [] ⟨true, true⟩
      = ([some 9, some 8], .err .TooManyCallsInFlight) :=
  (submit_assigns_lowest_free_id [some 9, some 8] 7 [] ⟨true, true⟩).1
    (by decide)

theorem serverInv_init : serverInv serverInit :=
  ⟨List.nodup_nil, by intro id hid; simp [serverInit] at hid⟩

theorem serverInv_step {s s' : ServerConn} {e : ServerEvent}
    (hs : serverInv s) (hstep : serverStep s e = some s') : serverInv s' := by
  obtain ⟨hnd, hbusy⟩ := hs
  cases e with
  | recvError => simp [serverStep] at hstep; subst hstep; exact ⟨hnd, hbusy⟩
  | nonBinary => simp [serverStep] at hstep; subst hstep; exact ⟨hnd, hbusy⟩
  | stateChange c => simp [serverStep] at hstep; subst hstep; exact ⟨hnd, hbusy⟩
  | response id =>
    by_cases hmem : id ∈ s.tasks
    · simp [serverStep, hmem] at hstep
      subst hstep
      refine ⟨hnd.erase id, ?_⟩
      intro j hj
      have hj' := (hnd.mem_erase_iff).1 hj
      have := hbusy j hj'.2
      simp [Function.update, hj'.1, this]
    · simp [serverStep, hmem] at hstep
      subst hstep
      exact ⟨hnd, hbusy⟩
  | binary d =>
    cases d with
    | none => simp [serverStep] at hstep
    | some m =>
      cases m with
      | RPCRequest id payload =>
        by_cases hbusyid : s.inFlight id
        · simp [serverStep, hbusyid] at hstep
          subst hstep
          exact ⟨hnd, hbusy⟩
        · simp [serverStep, hbusyid] at hstep
          subst hstep
          constructor
          · refine List.nodup_cons.2 ⟨?_, hnd⟩
            intro hmem
            exact hbusyid (hbusy id hmem)
          · intro j hj
            rcases List.mem_cons.1 hj with rfl | hj'
            · simp [Function.update]
            · by_cases hji : j = id
              · subst hji; simp [Function.update]
              · simp [Function.update, hji]
                exact hbusy j hj'

theorem serverInv_foldlM :
    ∀ (es : List ServerEvent) (s₀ : ServerConn), serverInv s₀ →
      ∀ s, es.foldlM serverStep s₀ = some s → serverInv s
  | [], s₀, h, s, he => by
    simp [List.foldlM] at he
    subst he
    exact h
  | e :: es, s₀, h, s, he => by
    rw [List.foldlM_cons] at he
    cases hstep : serverStep s₀ e with
    | none => rw [hstep] at he; simp at he
    | some s₁ =>
      rw [hstep] at he
      exact serverInv_foldlM es s₁ (serverInv_step h hstep) s (by simpa using he)

/-- C2: at every instant, on each side at most one RPC is outstanding per ID.

* Server (server.rs lines 192–228): along any event sequence that does not
  panic, no id ever has two outstanding handler tasks, and every outstanding
  id is marked busy (`busy[id]` is set before the task is spawned);
* a request whose id is already busy is ignored — the state is unchanged and
  no task is spawned;
* a fresh request sets `busy[id]` and spawns exactly one task;
* dispatching the response clears `busy[id]` and retires the task;
* Client (client.rs lines 172, 228–232): the slot table stores at most one
  completion handle per id by construction (`Option` per slot), and the
  handle is taken from the slot when its response arrives: the signal is
  delivered and the slot is freed in the same step. -/
theorem rpc_id_at_most_one_outstanding :
    (∀ es s, serverRun es = some s →
      ∀ id, s.tasks.count id ≤ 1 ∧ (id ∈ s.tasks → s.inFlight id = true))
  ∧ (∀ (s : ServerConn) id p, s.inFlight id = true →
      serverStep s (.binary (some (.RPCRequest id p))) = some s)
  ∧ (∀ (s : ServerConn) id p, s.inFlight id = false →
      serverStep s (.binary (some (.RPCRequest id p)))
        = some ⟨Function.update s.inFlight id true, id :: s.tasks⟩)
  ∧ (∀ (s : ServerConn) id, id ∈ s.tasks →
      serverStep s (.response id)
        = some ⟨Function.update s.inFlight id false, s.tasks.erase id⟩)
  ∧ (∀ (slots : List (Option Nat)) id out h es, slots[id]? = some (some h) →
      clientLoop slots (.response id out :: es)
        = .signal h (.result out) :: clientLoop (slots.set id none) es) := by
  refine ⟨?_, ?_, ?_, ?_, ?_⟩
  · intro es s hrun id
    have hinv := serverInv_foldlM es serverInit serverInv_init s hrun
    exact ⟨List.nodup_iff_count_le_one.1 hinv.1 id, hinv.2 id⟩
  · intro s id p hbusy
    simp [serverStep, hbusy]
  · intro s id p hfree
    simp [serverStep, hfree]
  · intro s id hmem
    simp [serverStep, hmem]
  · intro slots id out h es hslot
    simp [clientLoop, hslot]

/-- Witness for C2 at concrete states. -/
theorem rpc_id_at_most_one_outstanding_witness :
    ((serverInit.tasks.count 0 ≤ 1)
  ∧ (serverStep ⟨fun _ => true, [4]⟩ (.response 4)
      = some ⟨Function.update (fun _ => true) 4 false, List.erase [4] 4⟩)
  ∧ (clientLoop [some 5] [.response 0 (.ok [2])]
      = .signal 5 (.result (.ok [2])) :: clientLoop ([some 5].set 0 none) [])) := by
  refine ⟨(rpc_id_at_most_one_outstanding.1 [] serverInit rfl 0).1, ?_, ?_⟩
  · exact rpc_id_at_most_one_outstanding.2.2.2.1 ⟨fun _ => true, [4]⟩ 4 (by simp)
  · exact rpc_id_at_most_one_outstanding.2.2.2.2 [some 5] 0 (.ok [2]) 5 [] rfl

/-- C4: the claim — following spec §4.2 — says that when the client's
sub-label differs from the server's (or is absent) the server refuses the
WebSocket upgrade with a bad-request status and no frames are exchanged
after the refusal.  Refusal is the source's clear intent: the callback's
comment says the request is only valid when the sub-labels are equal, and
it logs an "Invalid request ... version mismatch" warning while setting the
status to `400 Bad Request`.  But the code is a slip: the callback returns
`Ok(response)` on that branch too (server.rs lines 143–146), and
`accept_hdr_async` aborts only on an `Err` from the callback, so the 400
response is written, the server-side upgrade completes, and the connection
task enters its RPC loop anyway.  Evaluated at the failing input — an
`hl/2` client against an `hl/1` server, followed by one binary
`RPCRequest { id: 0 }` frame — the response is `400` with no echoed
sub-label, yet the loop reads the frame after the refusal and spawns a
handler task for id 0 (the id is marked busy), contradicting the claim's
"no frames are exchanged after the refusal". -/
theorem version_gate_mismatch_code_bug :
    serverCallback (some "hl/2") "hl/1" = ⟨400, none⟩
  ∧ (serverConnection (some "hl/2") "hl/1"
      [.binary (some (.RPCRequest 0 []))]).1 = ⟨400, none⟩
  ∧ ((serverConnection (some "hl/2") "hl/1"
      [.binary (some (.RPCRequest 0 []))]).2.map ServerConn.tasks) = some [0]
  ∧ ((serverConnection (some "hl/2") "hl/1"
      [.binary (some (.RPCRequest 0 []))]).2.map (fun s => s.inFlight 0))
      = some true := by
  refine ⟨?_, ?_, rfl, ?_⟩
  · simp [serverCallback]
  · simp [serverConnection, serverCallback]
  · simp [serverConnection, serverRun, serverStep, serverInit, Function.update]

/-- C5: the client never signals readiness before the echoed sub-label has
been verified (if `ok` fired, verification succeeded), and once readiness
has been signalled `connect` never returns an error to the caller: every
subsequent failure is swallowed by the loop, which only exits via shutdown,
after which `connect` returns `Ok(())` (outcome `completed`). -/
theorem readiness_after_verification (echoed : Option String) (sent : String)
    (okAlive ctrlAlive : Bool) (es : List ClientEvent) :
    (okSignalled (connect echoed sent okAlive ctrlAlive es) = true →
      echoed = some sent)
  ∧ (∀ e, okSignalled (connect echoed sent okAlive ctrlAlive es) = true →
      connect echoed sent okAlive ctrlAlive es ≠ .handshakeFailed e)
  ∧ (echoed = some sent → okAlive = true → ctrlAlive = true →
      connect echoed sent okAlive ctrlAlive es
        = .completed (clientLoop initSlots es)) := by
  by_cases hech : echoed = some sent
  · subst hech
    have hcond : ¬ (some sent = none ∨ some sent ≠ some sent) := by simp
    cases okAlive <;> cases ctrlAlive <;>
      simp [connect, hcond, okSignalled]
  · have hcond : echoed = none ∨ echoed ≠ some sent := Or.inr hech
    simp [connect, if_pos hcond, okSignalled, hech]

/-- Witness for C5 at a concrete matching handshake. -/
theorem readiness_after_verification_witness :
    some "hl/1" = some "hl/1"
  ∧ connect (some "hl/1") "hl/1" true true []
      = .completed (clientLoop initSlots []) := by
  refine ⟨rfl, ?_⟩
  exact (readiness_after_verification (some "hl/1") "hl/1" true true []).2.2 rfl rfl rfl

/-- C10: after a successful handshake, `Client::connect` unwraps the sends
on the readiness oneshot (client.rs line 134) and the control-channels
oneshot (line 138); if the application has dropped the ok receiver the task
panics before readiness is delivered, and if it has dropped the
control-channels receiver the task panics after readiness was delivered —
in neither case does `connect` return an error. -/
theorem dropped_receiver_panics_connect (sent : String) (es : List ClientEvent) :
    (∀ ctrlAlive, connect (some sent) sent false ctrlAlive es = .panicked false)
  ∧ connect (some sent) sent true false es = .panicked true := by
  constructor
  · intro ctrlAlive
    simp [connect]
  · simp [connect]

/-- C6: on state-guard release a change record is emitted for exactly the
fields whose current value differs from the pre-image: a guard under which
no field changed emits zero `StateChange` envelopes, and a guard that
mutated the `counter` field (the `CounterState` record's only field, so
`N = 1`) emits exactly one envelope containing exactly that entry, with the
encoded new value. -/
theorem state_guard_diff_minimality (cur pre : CounterState) (chOpen : Bool) :
    (cur.counter = pre.counter →
      stateGuardRelease cur pre chOpen = ⟨.nothing, none⟩)
  ∧ (cur.counter ≠ pre.counter →
      (stateGuardRelease cur pre chOpen).emission
        = .enqueued [("counter", encodeU32 cur.counter)])
  ∧ diffChanges cur pre
      = if cur.counter ≠ pre.counter then [("counter", encodeU32 cur.counter)]
        else [] := by
  refine ⟨?_, ?_, rfl⟩
  · intro heq
    simp [stateGuardRelease, diffChanges, heq]
  · intro hne
    simp [stateGuardRelease, diffChanges, hne, forwardChanges]

/-- Witness for C6: an unchanged guard and a mutated guard. -/
theorem state_guard_diff_minimality_witness :
    stateGuardRelease ⟨3⟩ ⟨3⟩ true = ⟨.nothing, none⟩
  ∧ (stateGuardRelease ⟨4⟩ ⟨3⟩ true).emission
      = .enqueued [("counter", encodeU32 4)] :=
  ⟨(state_guard_diff_minimality ⟨3⟩ ⟨3⟩ true).1 rfl,
   (state_guard_diff_minimality ⟨4⟩ ⟨3⟩ true).2.1 (by decide)⟩

/-- C7 counterexample: the claim says that when the state-change channel is
unavailable the change is dropped rather than causing a failure.  In the
source the detached task runs `channel.send(changes).await.unwrap()`
(main.rs line 264), so with the channel closed and a non-empty diff the
forwarding task panics — a failure, not a silent drop. -/
theorem closed_channel_drop_panics_cex :
    (stateGuardRelease ⟨1⟩ ⟨0⟩ false).task = some TaskOutcome.panicked
  ∧ TaskOutcome.panicked ≠ TaskOutcome.delivered := by
  exact ⟨rfl, by decide⟩

/-- C7 (amended): enqueuing the non-empty diff never blocks or fails the
release path — the emission decided at guard release is independent of
channel availability, because the send happens in a detached spawned task —
and when the channel is unavailable the change is not delivered; but the
detached forwarding task then panics on the unwrap of the failed send
rather than discarding the change silently (when the channel is open it is
delivered). -/
theorem state_change_enqueue_detached (cur pre : CounterState)
    (chOpen chOpen' : Bool) :
    (stateGuardRelease cur pre chOpen).emission
      = (stateGuardRelease cur pre chOpen').emission
  ∧ (diffChanges cur pre ≠ [] →
      (stateGuardRelease cur pre false).task = some TaskOutcome.panicked)
  ∧ (diffChanges cur pre ≠ [] →
      (stateGuardRelease cur pre true).task = some TaskOutcome.delivered) := by
  refine ⟨?_, ?_, ?_⟩
  · by_cases hc : (diffChanges cur pre).isEmpty <;>
      simp [stateGuardRelease, hc]
  · intro hne
    have hc : (diffChanges cur pre).isEmpty = false := by
      simpa [List.isEmpty_iff] using hne
    simp [stateGuardRelease, hc, forwardChanges]
  · intro hne
    have hc : (diffChanges cur pre).isEmpty = false := by
      simpa [List.isEmpty_iff] using hne
    simp [stateGuardRelease, hc, forwardChanges]

/-- Witness for C7 (amended) at a mutated guard. -/
theorem state_change_enqueue_detached_witness :
    (stateGuardRelease ⟨2⟩ ⟨0⟩ false).emission
      = (stateGuardRelease ⟨2⟩ ⟨0⟩ true).emission
  ∧ (stateGuardRelease ⟨2⟩ ⟨0⟩ false).task = some TaskOutcome.panicked := by
  refine ⟨(state_change_enqueue_detached ⟨2⟩ ⟨0⟩ false true).1, ?_⟩
  exact (state_change_enqueue_detached ⟨2⟩ ⟨0⟩ false true).2.1 (by decide)

/-- C9: in the server connection loop, failure to decode an inbound binary
frame into a `ClientMessage` is a fatal condition: the decode result is
unwrapped (`rkyv::from_bytes(&binary).unwrap()`, server.rs line 189), so a
malformed binary frame panics the connection task — the step yields no
successor state — rather than being logged and skipped as on the client
(where a bad frame leaves the loop state unchanged, client.rs lines
216–221). -/
theorem malformed_frame_panics_server (s : ServerConn)
    (slots : List (Option Nat)) (es : List ClientEvent) :
    serverStep s (.binary none) = none
  ∧ (∀ s', serverStep s (.binary none) ≠ some s')
  ∧ clientLoop slots (.badFrame :: es) = clientLoop slots es := by
  refine ⟨rfl, ?_, rfl⟩
  intro s' h
  simp [serverStep] at h

/-- C8 counterexample: the claim says a write error on the client's
WebSocket is terminal — the loop exits and every pending completion handle
is dropped.  In the source (client.rs lines 196–201) the send failure is
logged, the failing call's handle receives `ClientNotConnected`, and the
loop `continue`s.  Concretely: call 5 is submitted and stored, call 7 then
hits a write error; afterwards the loop still processes the response that
resolves call 5 with a success payload — so the loop did not exit and the
pending handle was answered, not dropped. -/
theorem write_error_not_terminal_cex :
    clientLoop initSlots
      [.submit 5 [] ⟨true, true⟩, .submit 7 [] ⟨true, false⟩,
       .response 0 (.ok [2]), .shutdown]
    = [.frame (.RPCRequest 0 []),
       .signal 7 (.result (.error .ClientNotConnected)),
       .signal 5 (.result (.ok [2]))] := by
  rfl

/-- C8 (amended): a write error on the client's WebSocket is not terminal:
the failing call's completion handle receives `ClientNotConnected`, its
slot remains free, and the loop continues processing subsequent events with
the slot table unchanged; pending completion handles are dropped
(cancellation) only when the loop exits on shutdown. -/
theorem write_error_continues_loop (slots : List (Option Nat))
    (h : Nat) (p : Bytes) (es : List ClientEvent) (id : Nat)
    (hfree : position Option.isNone slots = some id) :
    clientLoop slots (.submit h p ⟨true, false⟩ :: es)
      = .signal h (.result (.error .ClientNotConnected)) :: clientLoop slots es
  ∧ clientLoop slots [.shutdown]
      = (pendingHandles slots).map (fun x => .signal x .cancelled) := by
  constructor
  · simp [clientLoop, clientSubmit, hfree]
  · rfl

/-- Witness for C8 (amended) at a concrete slot table. -/
theorem write_error_continues_loop_witness :
    clientLoop [none] [.submit 3 [] ⟨true, false⟩]
      = [.signal 3 (.result (.error .ClientNotConnected))] := by
  exact (write_error_continues_loop [none] 3 [] [] 0 rfl).1

theorem pendingHandles_set_some :
    ∀ (slots : List (Option Nat)) (id h : Nat), slots[id]? = some none →
      (pendingHandles (slots.set id (some h))).Perm (h :: pendingHandles slots) := by
  intro slots
  induction slots with
  | nil => intro id h hid; simp at hid
  | cons x xs ih =>
    intro id h hid
    cases id with
    | zero =>
      simp at hid
      subst hid
      simp [pendingHandles, List.filterMap_cons]
    | succ n =>
      simp at hid
      cases x with
      | none =>
        simpa [pendingHandles, List.filterMap_cons] using ih n h hid
      | some a =>
        have hp := (ih n h hid).cons a
        simp only [pendingHandles, List.filterMap_cons, List.set_cons_succ] at hp ⊢
        exact hp.trans (List.Perm.swap h a _)

theorem pendingHandles_take :
    ∀ (slots : List (Option Nat)) (id h : Nat), slots[id]? = some (some h) →
      (pendingHandles slots).Perm (h :: pendingHandles (slots.set id none)) := by
  intro slots
  induction slots with
  | nil => intro id h hid; simp at hid
  | cons x xs ih =>
    intro id h hid
    cases id with
    | zero =>
      simp at hid
      subst hid
      simp [pendingHandles, List.filterMap_cons]
    | succ n =>
      simp at hid
      cases x with
      | none =>
        simpa [pendingHandles, List.filterMap_cons] using ih n h hid
      | some a =>
        have hp := (ih n h hid).cons a
        simp only [pendingHandles, List.filterMap_cons, List.set_cons_succ] at hp ⊢
        exact hp.trans (List.Perm.swap h a _)

theorem signalCount_cancelled_map (l : List Nat) (h : Nat) (hnd : l.Nodup) :
    signalCount (l.map (fun x => LoopOut.signal x .cancelled)) h
      = if h ∈ l then 1 else 0 := by
  induction l with
  | nil => rfl
  | cons a l ih =>
    obtain ⟨hna, hnd'⟩ := List.nodup_cons.1 hnd
    have ih' := ih hnd'
    simp only [List.map_cons, signalCount, List.countP_cons] at ih' ⊢
    rw [ih']
    by_cases hah : a = h
    · subst hah
      simp [isSignalFor, hna]
    · by_cases hm : h ∈ l <;>
        simp [isSignalFor, hah, hm, Ne.symm hah]

theorem clientLoop_count :
    ∀ (es : List ClientEvent) (slots : List (Option Nat)) (h : Nat),
      shutdownFree es = true →
      (pendingHandles slots ++ submitHandles es).Nodup →
      signalCount (clientLoop slots (es ++ [.shutdown])) h
        = if h ∈ pendingHandles slots ++ submitHandles es then 1 else 0 := by
  intro es
  induction es with
  | nil =>
    intro slots h _ hnd
    simp only [submitHandles, List.append_nil] at hnd ⊢
    simp only [List.nil_append, clientLoop]
    exact signalCount_cancelled_map (pendingHandles slots) h hnd
  | cons e es ih =>
    intro slots h hsf hnd
    cases e with
    | shutdown => simp [shutdownFree] at hsf
    | stateChange c =>
      have hsf' : shutdownFree es = true := by simpa [shutdownFree] using hsf
      simp only [submitHandles] at hnd ⊢
      have hstep : clientLoop slots ((ClientEvent.stateChange c :: es) ++ [.shutdown])
          = clientLoop slots (es ++ [.shutdown]) := by
        simp [clientLoop]
      rw [hstep]
      exact ih slots h hsf' hnd
    | newEvent =>
      have hsf' : shutdownFree es = true := by simpa [shutdownFree] using hsf
      simp only [submitHandles] at hnd ⊢
      have hstep : clientLoop slots ((ClientEvent.newEvent :: es) ++ [.shutdown])
          = clientLoop slots (es ++ [.shutdown]) := by
        simp [clientLoop]
      rw [hstep]
      exact ih slots h hsf' hnd
    | badFrame =>
      have hsf' : shutdownFree es = true := by simpa [shutdownFree] using hsf
      simp only [submitHandles] at hnd ⊢
      have hstep : clientLoop slots ((ClientEvent.badFrame :: es) ++ [.shutdown])
          = clientLoop slots (es ++ [.shutdown]) := by
        simp [clientLoop]
      rw [hstep]
      exact ih slots h hsf' hnd
    | response id out =>
      have hsf' : shutdownFree es = true := by simpa [shutdownFree] using hsf
      simp only [submitHandles] at hnd ⊢
      rcases hq : slots[id]? with _ | o
      · have hstep : clientLoop slots ((ClientEvent.response id out :: es) ++ [.shutdown])
            = clientLoop slots (es ++ [.shutdown]) := by
          simp [clientLoop, hq]
        rw [hstep]
        exact ih slots h hsf' hnd
      · cases o with
        | none =>
          have hstep : clientLoop slots ((ClientEvent.response id out :: es) ++ [.shutdown])
              = clientLoop slots (es ++ [.shutdown]) := by
            simp [clientLoop, hq]
          rw [hstep]
          exact ih slots h hsf' hnd
        | some h'' =>
          have hperm := pendingHandles_take slots id h'' hq
          have hstep : clientLoop slots ((ClientEvent.response id out :: es) ++ [.shutdown])
              = .signal h'' (.result out)
                  :: clientLoop (slots.set id none) (es ++ [.shutdown]) := by
            simp [clientLoop, hq]
          rw [hstep]
          have hp3 : (pendingHandles slots ++ submitHandles es).Perm
              (h'' :: (pendingHandles (slots.set id none) ++ submitHandles es)) :=
            hperm.append_right (submitHandles es)
          have hnd2 := hp3.nodup hnd
          obtain ⟨hnotin, hnd3⟩ := List.nodup_cons.1 hnd2
          have ihv := ih (slots.set id none) h hsf' hnd3
          simp only [signalCount, List.countP_cons] at ihv ⊢
          rw [ihv]
          by_cases hh : h'' = h
          · subst hh
            have hmem : h'' ∈ pendingHandles slots ++ submitHandles es :=
              hp3.mem_iff.2 (List.mem_cons_self _ _)
            simp [isSignalFor, hnotin, hmem]
          · have hbeq : isSignalFor h (LoopOut.signal h'' (Signal.result out)) = false := by
              simp [isSignalFor, hh]
            have hmemiff : (h ∈ pendingHandles (slots.set id none) ++ submitHandles es)
                ↔ (h ∈ pendingHandles slots ++ submitHandles es) := by
              rw [hp3.mem_iff, List.mem_cons]
              simp [Ne.symm hh]
            rw [hbeq]
            simp only [Bool.false_eq_true, if_false, Nat.add_zero]
            exact if_congr hmemiff rfl rfl
    | submit h' p env =>
      obtain ⟨eok, sok⟩ := env
      have hsf' : shutdownFree es = true := by simpa [shutdownFree] using hsf
      simp only [submitHandles] at hnd ⊢
      have hperm : (pendingHandles slots ++ h' :: submitHandles es).Perm
          (h' :: (pendingHandles slots ++ submitHandles es)) := List.perm_middle
      have hnd2 := hperm.nodup hnd
      obtain ⟨hnotin, hnd3⟩ := List.nodup_cons.1 hnd2
      have herr : ∀ er : RpcHandlerError,
          signalCount (LoopOut.signal h' (.result (.error er))
              :: clientLoop slots (es ++ [.shutdown])) h
            = if h ∈ pendingHandles slots ++ h' :: submitHandles es then 1 else 0 := by
        intro er
        have ihv := ih slots h hsf' hnd3
        simp only [signalCount, List.countP_cons] at ihv ⊢
        rw [ihv]
        by_cases hh : h' = h
        · subst hh
          have hmem : h' ∈ pendingHandles slots ++ h' :: submitHandles es :=
            List.mem_append.2 (Or.inr (List.mem_cons_self _ _))
          simp [isSignalFor, hnotin, hmem]
        · have hbeq : isSignalFor h (LoopOut.signal h' (Signal.result (Except.error er)))
              = false := by
            simp [isSignalFor, hh]
          have hmemiff : (h ∈ pendingHandles slots ++ submitHandles es)
              ↔ (h ∈ pendingHandles slots ++ h' :: submitHandles es) := by
            rw [hperm.mem_iff, List.mem_cons]
            simp [Ne.symm hh]
          rw [hbeq]
          simp only [Bool.false_eq_true, if_false, Nat.add_zero]
          exact if_congr hmemiff rfl rfl
      rcases hpos : position Option.isNone slots with _ | id
      · have hstep : clientLoop slots
            ((ClientEvent.submit h' p ⟨eok, sok⟩ :: es) ++ [.shutdown])
            = LoopOut.signal h' (.result (.error .TooManyCallsInFlight))
                :: clientLoop slots (es ++ [.shutdown]) := by
          simp [clientLoop, clientSubmit, hpos]
        rw [hstep]
        exact herr _
      · cases eok with
        | false =>
          have hstep : clientLoop slots
              ((ClientEvent.submit h' p ⟨false, sok⟩ :: es) ++ [.shutdown])
              = LoopOut.signal h' (.result (.error .BadInputBytes))
                  :: clientLoop slots (es ++ [.shutdown]) := by
            simp [clientLoop, clientSubmit, hpos]
          rw [hstep]
          exact herr _
        | true =>
          cases sok with
          | false =>
            have hstep : clientLoop slots
                ((ClientEvent.submit h' p ⟨true, false⟩ :: es) ++ [.shutdown])
                = LoopOut.signal h' (.result (.error .ClientNotConnected))
                    :: clientLoop slots (es ++ [.shutdown]) := by
              simp [clientLoop, clientSubmit, hpos]
            rw [hstep]
            exact herr _
          | true =>
            have hfree := (position_isNone_spec slots id hpos).1
            have hperm2 := pendingHandles_set_some slots id h' hfree
            have hstep : clientLoop slots
                ((ClientEvent.submit h' p ⟨true, true⟩ :: es) ++ [.shutdown])
                = LoopOut.frame (.RPCRequest id p)
                    :: clientLoop (slots.set id (some h')) (es ++ [.shutdown]) := by
              simp [clientLoop, clientSubmit, hpos]
            rw [hstep]
            have hp3 : (pendingHandles (slots.set id (some h')) ++ submitHandles es).Perm
                (h' :: (pendingHandles slots ++ submitHandles es)) :=
              hperm2.append_right (submitHandles es)
            have hndA : (pendingHandles (slots.set id (some h')) ++ submitHandles es).Nodup :=
              hp3.symm.nodup hnd2
            have ihv := ih (slots.set id (some h')) h hsf' hndA
            simp only [signalCount, List.countP_cons] at ihv ⊢
            rw [ihv]
            have hfr : isSignalFor h (LoopOut.frame (ClientMessage.RPCRequest id p))
                = false := rfl
            rw [hfr]
            simp only [Bool.false_eq_true, if_false, Nat.add_zero]
            exact if_congr (hp3.mem_iff.trans hperm.mem_iff.symm) rfl rfl

/-- C3: for every call submitted through the client's submit channel (with
distinct completion handles) along a run that exits on shutdown, its
completion handle is signalled exactly once: with the successful response
payload, with an `RpcError` (`BadInputBytes` on encode failure,
`ClientNotConnected` on send failure, `TooManyCallsInFlight` on slot
exhaustion, or the server-returned error — all of which `clientLoop` emits
as `Signal.result`), or by cancellation when the loop exits on shutdown and
drops the pending handles.  It is never signalled twice and never leaked:
the total signal count for the handle over the whole run is exactly 1. -/
theorem completion_signalled_exactly_once (es : List ClientEvent) (h : Nat)
    (hsf : shutdownFree es = true)
    (hnd : (submitHandles es).Nodup)
    (hmem : h ∈ submitHandles es) :
    signalCount (clientLoop initSlots (es ++ [.shutdown])) h = 1 := by
  have hpend : pendingHandles initSlots = [] := rfl
  have hc := clientLoop_count es initSlots h hsf (by rw [hpend]; simpa using hnd)
  rw [hc, hpend]
  simp [hmem]

/-- Witness for C3: one submitted call, resolved by cancellation. -/
theorem completion_signalled_exactly_once_witness :
    signalCount (clientLoop initSlots
      ([.submit 3 [] ⟨true, true⟩] ++ [.shutdown])) 3 = 1 := by
  exact completion_signalled_exactly_once [.submit 3 [] ⟨true, true⟩] 3 rfl
    (by simp [submitHandles]) (by simp [submitHandles])

end HardLight
